import Mathlib

/-!
Shallow embedding of the subscription/entitlement subsystem of the
LinkedIn_Slayer backend (src/backend/subscription.py,
src/backend/stripe_service.py and the webhook / entitlement helpers in
src/backend/server.py), together with theorems settling the spec claims.

Timestamps that the Python code stores as ISO-8601 UTC strings and compares
after parsing are modelled as integer seconds (`Int`); absent / falsy values
are `Option.none`.  Calendar datetimes used by the usage-period computation
are modelled by an explicit `UTCTime` record.
-/

namespace LinkedInSlayer

/-- A parsed UTC calendar datetime (the code's `datetime` values, to second
precision). -/
structure UTCTime where
  year : Int
  month : Nat
  day : Nat
  hour : Nat
  minute : Nat
  second : Nat
deriving DecidableEq

/-- The subscription record embedded in a tenant's settings document
(`SubscriptionData` in subscription.py).  Timestamp-valued fields are
seconds; `none` models an absent/null field. -/
structure SubscriptionData where
  tier : String := "free"
  status : String := "active"
  billing_cycle : Option String := none
  currency : String := "aud"
  stripe_customer_id : Option String := none
  stripe_subscription_id : Option String := none
  stripe_price_id : Option String := none
  current_period_start : Option Int := none
  current_period_end : Option Int := none
  cancelled_at : Option Int := none
  cancel_at_period_end : Bool := false
  payment_failed_at : Option Int := none
  grace_period_ends : Option Int := none
  payment_method_last4 : Option String := none
  payment_method_brand : Option String := none
  payment_method_exp : Option String := none
deriving DecidableEq

/-- The usage record embedded in a tenant's settings document
(`UsageData` in subscription.py), with the model's field defaults. -/
structure UsageData where
  period_start : Option UTCTime := none
  period_end : Option UTCTime := none
  posts_created : Int := 0
  ai_generations : Int := 0
  ai_hook_improvements : Int := 0
  url_imports : Int := 0
  gem_extractions : Int := 0
  voice_analyses : Int := 0
  comment_drafts : Int := 0
  topic_suggestions_week_start : Option UTCTime := none
  topic_suggestions_count : Int := 0
  lifetime_posts : Int := 0
  lifetime_ai_generations : Int := 0
  last_reset : Option UTCTime := none
deriving DecidableEq

/-- `get_default_subscription` (subscription.py): the model defaults. -/
def get_default_subscription : SubscriptionData := {}

/-- `GRACE_PERIOD_HOURS = 48` (subscription.py). -/
def GRACE_PERIOD_HOURS : Int := 48

/-- `DEFAULT_CURRENCY = "aud"` (subscription.py). -/
def DEFAULT_CURRENCY : String := "aud"

/-- `get_effective_tier` (subscription.py lines 353-374).  The Python code
reads "now" from the clock; here it is an explicit parameter. -/
def get_effective_tier (sub : SubscriptionData) (now : Int) : String :=
  if sub.tier == "free" then "free"
  else if sub.status == "active" then sub.tier
  else
    match sub.grace_period_ends with
    | some g => if sub.status == "past_due" && decide (now < g) then sub.tier else "free"
    | none => "free"

/-- `is_in_grace_period` (subscription.py lines 376-389). -/
def is_in_grace_period (sub : SubscriptionData) (now : Int) : Bool :=
  if sub.status != "past_due" then false
  else
    match sub.grace_period_ends with
    | some g => decide (now < g)
    | none => false

/-- `get_grace_period_hours_remaining` (subscription.py lines 391-405).
Python computes `max(0, int(remaining.total_seconds() / 3600))`; in the
reachable branch `remaining` is positive, so `int` truncation is floor
division, modelled by `Int.toNat` followed by `Nat` division. -/
def get_grace_period_hours_remaining (sub : SubscriptionData) (now : Int) : Int :=
  if is_in_grace_period sub now then
    match sub.grace_period_ends with
    | some g => max 0 (((g - now).toNat / 3600 : Nat) : Int)
    | none => 0
  else 0

/-- `calculate_grace_period_end` (subscription.py): 48 hours after the given
time, in seconds. -/
def calculate_grace_period_end (from_time : Int) : Int :=
  from_time + GRACE_PERIOD_HOURS * 3600

/-- The `"free"` row of `USAGE_LIMITS` (subscription.py lines 35-50);
`none` models an absent key. -/
def free_limits : String → Option Int := fun r =>
  match r with
  | "posts_per_month" => some 5
  | "ai_generations_per_month" => some 3
  | "ai_hook_improvements_per_month" => some 3
  | "active_scheduled_posts" => some 2
  | "knowledge_items" => some 10
  | "url_imports_per_month" => some 3
  | "gem_extractions_per_month" => some 2
  | "voice_profiles" => some 1
  | "voice_analyses_per_month" => some 1
  | "url_history" => some 5
  | "tracked_influencers" => some 3
  | "tracked_posts" => some 5
  | "comment_drafts_per_month" => some 0
  | "topic_suggestions_per_week" => some 3
  | _ => none

/-- The `"basic"` row of `USAGE_LIMITS` (subscription.py lines 51-66). -/
def basic_limits : String → Option Int := fun r =>
  match r with
  | "posts_per_month" => some 30
  | "ai_generations_per_month" => some 20
  | "ai_hook_improvements_per_month" => some 15
  | "active_scheduled_posts" => some 10
  | "knowledge_items" => some 50
  | "url_imports_per_month" => some 20
  | "gem_extractions_per_month" => some 10
  | "voice_profiles" => some 3
  | "voice_analyses_per_month" => some 5
  | "url_history" => some 25
  | "tracked_influencers" => some 15
  | "tracked_posts" => some 25
  | "comment_drafts_per_month" => some 10
  | "topic_suggestions_per_week" => some (-1)
  | _ => none

/-- The `"premium"` row of `USAGE_LIMITS` (subscription.py lines 67-82):
every configured resource is unlimited (`-1`). -/
def premium_limits : String → Option Int := fun r =>
  match r with
  | "posts_per_month" => some (-1)
  | "ai_generations_per_month" => some (-1)
  | "ai_hook_improvements_per_month" => some (-1)
  | "active_scheduled_posts" => some (-1)
  | "knowledge_items" => some (-1)
  | "url_imports_per_month" => some (-1)
  | "gem_extractions_per_month" => some (-1)
  | "voice_profiles" => some (-1)
  | "voice_analyses_per_month" => some (-1)
  | "url_history" => some (-1)
  | "tracked_influencers" => some (-1)
  | "tracked_posts" => some (-1)
  | "comment_drafts_per_month" => some (-1)
  | "topic_suggestions_per_week" => some (-1)
  | _ => none

/-- `USAGE_LIMITS.get(tier, ...)`: the per-tier row, `none` for an
unrecognized tier. -/
def usage_limits_row (tier : String) : Option (String → Option Int) :=
  if tier == "free" then some free_limits
  else if tier == "basic" then some basic_limits
  else if tier == "premium" then some premium_limits
  else none

/-- `get_usage_limit` (subscription.py lines 344-346): falls back to the
free-tier row for an unrecognized tier, and to 0 for an unknown resource. -/
def get_usage_limit (tier limit_name : String) : Int :=
  (((usage_limits_row tier).getD free_limits) limit_name).getD 0

/-- The `usage_field_map` inside `check_usage_limit` (server.py lines
2171-2181): maps a limit name to the usage counter field, defaulting to the
limit name itself. -/
def usage_field_map (usage_type : String) : String :=
  match usage_type with
  | "posts_per_month" => "posts_created"
  | "ai_generations_per_month" => "ai_generations"
  | "ai_hook_improvements_per_month" => "ai_hook_improvements"
  | "url_imports_per_month" => "url_imports"
  | "gem_extractions_per_month" => "gem_extractions"
  | "voice_analyses_per_month" => "voice_analyses"
  | "comment_drafts_per_month" => "comment_drafts"
  | other => other

/-- `usage.get(usage_field, 0)` over the usage record's counter fields. -/
def usage_field_value (u : UsageData) (field : String) : Int :=
  match field with
  | "posts_created" => u.posts_created
  | "ai_generations" => u.ai_generations
  | "ai_hook_improvements" => u.ai_hook_improvements
  | "url_imports" => u.url_imports
  | "gem_extractions" => u.gem_extractions
  | "voice_analyses" => u.voice_analyses
  | "comment_drafts" => u.comment_drafts
  | "topic_suggestions_count" => u.topic_suggestions_count
  | "lifetime_posts" => u.lifetime_posts
  | "lifetime_ai_generations" => u.lifetime_ai_generations
  | _ => 0

/-- `check_usage_limit` (server.py lines 2158-2184), de-IO'd: the stored
subscription and usage records and the clock are explicit parameters.
Returns `true` for Allowed, `false` for Denied. -/
def check_usage_limit (sub : SubscriptionData) (u : UsageData)
    (usage_type : String) (now : Int) : Bool :=
  let effective_tier := get_effective_tier sub now
  let limit := get_usage_limit effective_tier usage_type
  if limit == -1 then true
  else
    let usage_field := usage_field_map usage_type
    let current := usage_field_value u usage_field
    decide (current < limit)

/-- `now.replace(day=1, hour=0, minute=0, second=0, microsecond=0)`: the
start-of-month computation shared by `get_default_usage` and
`get_reset_usage_data` (subscription.py lines 329-334 and 440-445). -/
def month_period_start (now : UTCTime) : UTCTime :=
  { now with day := 1, hour := 0, minute := 0, second := 0 }

/-- The end-of-period computation of `get_default_usage` /
`get_reset_usage_data`: `start_of_month.replace(year=now.year+1, month=1)`
when `now.month == 12`, else `start_of_month.replace(month=now.month+1)`. -/
def month_period_end (now : UTCTime) : UTCTime :=
  if now.month == 12 then
    { month_period_start now with year := now.year + 1, month := 1 }
  else
    { month_period_start now with month := now.month + 1 }

/-- First instant of the calendar month following `now`'s, written as the
spec describes it (one formula, no month-12 branch), for comparison with the
source's `month_period_end`. -/
def spec_first_of_following_month (now : UTCTime) : UTCTime :=
  { year := if now.month = 12 then now.year + 1 else now.year
    month := now.month % 12 + 1
    day := 1, hour := 0, minute := 0, second := 0 }

/-- Strict chronological order on `UTCTime`, lexicographic by field. -/
def UTCTime.ltb (a b : UTCTime) : Bool :=
  if a.year != b.year then decide (a.year < b.year)
  else if a.month != b.month then decide (a.month < b.month)
  else if a.day != b.day then decide (a.day < b.day)
  else if a.hour != b.hour then decide (a.hour < b.hour)
  else if a.minute != b.minute then decide (a.minute < b.minute)
  else decide (a.second < b.second)

/-- The dict literally returned by `get_reset_usage_data` (subscription.py
lines 438-458): note it carries neither the `lifetime_*` counters nor the
weekly topic-suggestion fields. -/
structure ResetUsageDoc where
  period_start : UTCTime
  period_end : UTCTime
  posts_created : Int
  ai_generations : Int
  ai_hook_improvements : Int
  url_imports : Int
  gem_extractions : Int
  voice_analyses : Int
  comment_drafts : Int
  last_reset : UTCTime
deriving DecidableEq

/-- `get_reset_usage_data` (subscription.py lines 438-458), with the clock
explicit. -/
def get_reset_usage_data (now : UTCTime) : ResetUsageDoc :=
  { period_start := month_period_start now
    period_end := month_period_end now
    posts_created := 0
    ai_generations := 0
    ai_hook_improvements := 0
    url_imports := 0
    gem_extractions := 0
    voice_analyses := 0
    comment_drafts := 0
    last_reset := now }

/-- The webhook handler persists the reset with
`update_one({...}, {"$set": {"usage": reset_data}})` (server.py lines
2125-2129): the whole `usage` sub-document is replaced by the reset dict, so
every field absent from `ResetUsageDoc` reads back at its model default. -/
def store_usage_replacing (doc : ResetUsageDoc) : UsageData :=
  { period_start := some doc.period_start
    period_end := some doc.period_end
    posts_created := doc.posts_created
    ai_generations := doc.ai_generations
    ai_hook_improvements := doc.ai_hook_improvements
    url_imports := doc.url_imports
    gem_extractions := doc.gem_extractions
    voice_analyses := doc.voice_analyses
    comment_drafts := doc.comment_drafts
    last_reset := some doc.last_reset }

/-- The metadata bag echoed back on a checkout event; absent keys are
`none`. -/
structure CheckoutMetadata where
  user_id : Option String := none
  tier : Option String := none
  billing_cycle : Option String := none
  currency : Option String := none
deriving DecidableEq

/-- The fields of `CheckoutStatusResponse` that
`get_subscription_update_from_checkout` reads via `getattr`. -/
structure CheckoutStatus where
  subscription : Option String := none
  customer : Option String := none
deriving DecidableEq

/-- `get_subscription_update_from_checkout` (stripe_service.py lines
186-225), as the `$set` of its returned dotted-path dict applied to the
stored subscription record.  Fields not in the dict (e.g.
`stripe_price_id`) are untouched. -/
def get_subscription_update_from_checkout (sub : SubscriptionData)
    (checkout_status : CheckoutStatus) (metadata : CheckoutMetadata)
    (now : Int) : SubscriptionData :=
  let tier := metadata.tier.getD "basic"
  let billing_cycle := metadata.billing_cycle.getD "monthly"
  let currency := metadata.currency.getD DEFAULT_CURRENCY
  let period_end := if billing_cycle == "annual" then now + 365 * 86400 else now + 30 * 86400
  { sub with
    tier := tier
    status := "active"
    billing_cycle := some billing_cycle
    currency := currency
    current_period_start := some now
    current_period_end := some period_end
    cancelled_at := none
    cancel_at_period_end := false
    payment_failed_at := none
    grace_period_ends := none
    stripe_subscription_id := checkout_status.subscription
    stripe_customer_id := checkout_status.customer }

/-- `get_subscription_cancellation_update` (stripe_service.py lines
227-233) applied to the stored record. -/
def get_subscription_cancellation_update (sub : SubscriptionData)
    (now : Int) : SubscriptionData :=
  { sub with cancel_at_period_end := true, cancelled_at := some now }

/-- `get_subscription_reactivation_update` (stripe_service.py lines
235-240) applied to the stored record. -/
def get_subscription_reactivation_update (sub : SubscriptionData) : SubscriptionData :=
  { sub with cancel_at_period_end := false, cancelled_at := none }

/-- `get_payment_failed_update` (stripe_service.py lines 242-249) applied to
the stored record. -/
def get_payment_failed_update (sub : SubscriptionData) (now : Int) : SubscriptionData :=
  { sub with
    status := "past_due"
    payment_failed_at := some now
    grace_period_ends := some (calculate_grace_period_end now) }

/-- `get_payment_succeeded_update` (stripe_service.py lines 251-269) applied
to the stored record.  The webhook passes
`billing_cycle = stored.billing_cycle or "monthly"` (server.py line 2117). -/
def get_payment_succeeded_update (sub : SubscriptionData)
    (billing_cycle : String) (now : Int) : SubscriptionData :=
  let period_end := if billing_cycle == "annual" then now + 365 * 86400 else now + 30 * 86400
  { sub with
    status := "active"
    payment_failed_at := none
    grace_period_ends := none
    current_period_start := some now
    current_period_end := some period_end }

/-- `get_subscription_expired_update` (stripe_service.py lines 271-285)
applied to the stored record: the dict clears the listed fields only;
`stripe_customer_id`, `currency` and the payment-method fields are not in
the dict and stay untouched. -/
def get_subscription_expired_update (sub : SubscriptionData) : SubscriptionData :=
  { sub with
    tier := "free"
    status := "expired"
    billing_cycle := none
    stripe_subscription_id := none
    stripe_price_id := none
    current_period_start := none
    current_period_end := none
    cancelled_at := none
    cancel_at_period_end := false
    payment_failed_at := none
    grace_period_ends := none }

/-- `POST /subscription/reactivate` (server.py lines 2027-2052) on the
stored subscription record: raises 400 "No cancellation to revert" before
any write when `cancel_at_period_end` is not set, else applies
`get_subscription_reactivation_update`. -/
def reactivate_subscription (sub : SubscriptionData) : Except String SubscriptionData :=
  if !sub.cancel_at_period_end then .error "No cancellation to revert"
  else .ok (get_subscription_reactivation_update sub)

/-- The process environment, `os.environ.get`. -/
def Env : Type := String → Option String

/-- The `STRIPE_PRICE_{TIER}_{CYCLE}_{CURRENCY}` env key built by both
price-id functions (stripe_service.py lines 35 and 53). -/
def stripe_price_env_key (tier cycle currency : String) : String :=
  "STRIPE_PRICE_" ++ tier.toUpper ++ "_" ++ cycle.toUpper ++ "_" ++ currency.toUpper

/-- `get_price_id` (stripe_service.py lines 27-42). -/
def get_price_id (env : Env) (tier billing_cycle currency : String) : String :=
  match env (stripe_price_env_key tier billing_cycle currency) with
  | some price_id => price_id
  | none => "price_" ++ tier ++ "_" ++ billing_cycle ++ "_" ++ currency

/-- The `(tier, cycle, currency)` combinations scanned by
`get_tier_from_price_id`, in the source's loop order (tiers basic then
premium, cycles monthly then annual, currencies in `CURRENCY_CONFIG` key
order aud, usd, eur, gbp). -/
def price_id_combos : List (String × String × String) :=
  [("basic", "monthly", "aud"), ("basic", "monthly", "usd"),
   ("basic", "monthly", "eur"), ("basic", "monthly", "gbp"),
   ("basic", "annual", "aud"), ("basic", "annual", "usd"),
   ("basic", "annual", "eur"), ("basic", "annual", "gbp"),
   ("premium", "monthly", "aud"), ("premium", "monthly", "usd"),
   ("premium", "monthly", "eur"), ("premium", "monthly", "gbp"),
   ("premium", "annual", "aud"), ("premium", "annual", "usd"),
   ("premium", "annual", "eur"), ("premium", "annual", "gbp")]

/-- Python's `str.split(sep)` for a single-character separator, on char
lists: splits at every occurrence, keeping empty pieces. -/
def split_chars (sep : Char) : List Char → List (List Char)
  | [] => [[]]
  | c :: rest =>
    if c == sep then [] :: split_chars sep rest
    else
      match split_chars sep rest with
      | [] => [[c]]
      | h :: t => (c :: h) :: t

/-- `price_id.split("_")` (stripe_service.py line 59). -/
def split_on_underscore (s : String) : List String :=
  (split_chars '_' s.toList).map (fun cs => String.mk cs)

/-- `price_id.startswith("price_")` (stripe_service.py line 58). -/
def starts_with_price (s : String) : Bool :=
  "price_".toList.isPrefixOf s.toList

/-- `get_tier_from_price_id` (stripe_service.py lines 44-63). -/
def get_tier_from_price_id (env : Env) (price_id : String) : String × String × String :=
  match price_id_combos.find?
      (fun c => env (stripe_price_env_key c.1 c.2.1 c.2.2) == some price_id) with
  | some c => c
  | none =>
    if starts_with_price price_id then
      let parts := split_on_underscore price_id
      if parts.length ≥ 4 then (parts.getD 1 "", parts.getD 2 "", parts.getD 3 "")
      else ("free", "monthly", DEFAULT_CURRENCY)
    else ("free", "monthly", DEFAULT_CURRENCY)

/-- The per-tenant state the `checkout.session.completed` webhook branch
touches: the subscription record plus the `payment_transactions` collection
(session id → transaction status). -/
structure TenantState where
  sub : SubscriptionData
  txns : List (String × String)
deriving DecidableEq

/-- `update_one({"session_id": sid}, {"$set": {"status": "completed"}})`:
marks the matching transaction completed (no upsert). -/
def mark_txn_completed (txns : List (String × String)) (sid : String) :
    List (String × String) :=
  txns.map (fun p => if p.1 == sid then (p.1, "completed") else p)

/-- The transaction record's status for a session id. -/
def txn_status (txns : List (String × String)) (sid : String) : Option String :=
  (txns.find? (fun p => p.1 == sid)).map (fun p => p.2)

/-- The `checkout.session.completed` branch of `stripe_webhook` (server.py
lines 2089-2103): it applies `get_subscription_update_from_checkout` to the
subscription and then marks the transaction completed, with no prior check
of the stored transaction's status. -/
def webhook_checkout_completed (st : TenantState) (cs : CheckoutStatus)
    (metadata : CheckoutMetadata) (session_id : String) (now : Int) : TenantState :=
  { sub := get_subscription_update_from_checkout st.sub cs metadata now
    txns := mark_txn_completed st.txns session_id }

/-- A basic-tier subscription in good standing. -/
def basic_active_sub : SubscriptionData := { tier := "basic", status := "active" }

/-- A premium-tier subscription in good standing. -/
def premium_active_sub : SubscriptionData := { tier := "premium", status := "active" }

/-!  Theorems settling the claims. -/

/-- C1: `get_effective_tier` returns `"free"` when the recorded tier is
`"free"`; the recorded tier when the status is `"active"`; the recorded
tier when the status is `"past_due"`, `grace_period_ends` is set and `now`
is strictly before it; and `"free"` in every other case (in particular
exactly at and after `grace_period_ends`). -/
theorem effective_tier_cases (sub : SubscriptionData) (now g : Int) :
    (sub.tier = "free" → get_effective_tier sub now = "free") ∧
    (sub.status = "active" → get_effective_tier sub now = sub.tier) ∧
    (sub.status = "past_due" → sub.grace_period_ends = some g → now < g →
      get_effective_tier sub now = sub.tier) ∧
    (sub.status ≠ "active" →
      (∀ g2, sub.grace_period_ends = some g2 → sub.status = "past_due" → g2 ≤ now) →
      get_effective_tier sub now = "free") := by
  refine ⟨?_, ?_, ?_, ?_⟩
  · intro h
    simp [get_effective_tier, h]
  · intro h
    simp only [get_effective_tier, h]
    split <;> simp_all
  · intro h1 h2 h3
    simp only [get_effective_tier, h1, h2]
    split <;> simp_all
  · intro h1 h2
    by_cases ht : sub.tier = "free"
    · simp [get_effective_tier, ht]
    · simp only [get_effective_tier, beq_iff_eq, ht, h1, if_false]
      cases hg : sub.grace_period_ends with
      | none => simp
      | some g2 =>
        by_cases hs : sub.status = "past_due"
        · have hle := h2 g2 hg hs
          simp [hs]
          omega
        · simp [hs]

/-- C1 witness: a past-due basic subscription with grace end 100 keeps tier
`"basic"` one second before the grace end and drops to `"free"` exactly at
and after it. -/
theorem effective_tier_cases_witness :
    get_effective_tier { tier := "basic", status := "past_due", grace_period_ends := some 100 } 99 = "basic" ∧
    get_effective_tier { tier := "basic", status := "past_due", grace_period_ends := some 100 } 100 = "free" ∧
    get_effective_tier { tier := "basic", status := "past_due", grace_period_ends := some 100 } 101 = "free" := by
  refine ⟨(effective_tier_cases _ 99 100).2.2.1 rfl rfl (by decide),
    (effective_tier_cases _ 100 100).2.2.2 (by decide) ?_,
    (effective_tier_cases _ 101 100).2.2.2 (by decide) ?_⟩ <;>
  · intro g2 hg _
    injection hg with h
    omega

/-- Helper: grace hours remaining is 0 whenever `grace_period_ends` is
absent. -/
lemma grace_hours_none (sub : SubscriptionData) (now : Int)
    (h : sub.grace_period_ends = none) :
    get_grace_period_hours_remaining sub now = 0 := by
  by_cases hs : sub.status = "past_due" <;>
    simp [get_grace_period_hours_remaining, is_in_grace_period, h, hs]

/-- Helper: closed form of grace hours remaining when `grace_period_ends`
is set. -/
lemma grace_hours_some (sub : SubscriptionData) (now g : Int)
    (h : sub.grace_period_ends = some g) :
    get_grace_period_hours_remaining sub now =
      if sub.status = "past_due" ∧ now < g then (((g - now).toNat / 3600 : Nat) : Int)
      else 0 := by
  by_cases hs : sub.status = "past_due" <;> by_cases hlt : now < g
  · simp [get_grace_period_hours_remaining, is_in_grace_period, h, hs, hlt]
    omega
  · simp [get_grace_period_hours_remaining, is_in_grace_period, h, hs, hlt]
  · simp [get_grace_period_hours_remaining, is_in_grace_period, h, hs, hlt]
  · simp [get_grace_period_hours_remaining, is_in_grace_period, h, hs, hlt]

/-- C6: `get_grace_period_hours_remaining` is never negative, is 0 outside
the grace period, equals `max(0, floor((grace_period_ends - now) in hours))`
inside it, and is monotonically non-increasing as `now` advances. -/
theorem grace_period_hours_remaining_spec (sub : SubscriptionData) (now later g : Int) :
    0 ≤ get_grace_period_hours_remaining sub now ∧
    (is_in_grace_period sub now = false → get_grace_period_hours_remaining sub now = 0) ∧
    (is_in_grace_period sub now = true → sub.grace_period_ends = some g →
      get_grace_period_hours_remaining sub now = max 0 (Int.fdiv (g - now) 3600)) ∧
    (now ≤ later →
      get_grace_period_hours_remaining sub later ≤ get_grace_period_hours_remaining sub now) := by
  refine ⟨?_, ?_, ?_, ?_⟩
  · rcases hg : sub.grace_period_ends with _ | g2
    · rw [grace_hours_none sub now hg]
    · rw [grace_hours_some sub now g2 hg]
      split <;> omega
  · intro h
    rcases hg : sub.grace_period_ends with _ | g2
    · exact grace_hours_none sub now hg
    · simp only [is_in_grace_period, hg] at h
      rw [grace_hours_some sub now g2 hg, if_neg]
      intro ⟨hs, hlt⟩
      simp [hs, hlt] at h
  · intro h1 h2
    simp only [is_in_grace_period, h2] at h1
    have hsl : sub.status = "past_due" ∧ now < g := by
      by_cases hs : sub.status = "past_due"
      · simp [hs] at h1
        exact ⟨hs, h1⟩
      · simp [hs] at h1
    rw [grace_hours_some sub now g h2, if_pos hsl,
      Int.fdiv_eq_ediv _ (by norm_num)]
    omega
  · intro hle
    rcases hg : sub.grace_period_ends with _ | g2
    · rw [grace_hours_none sub now hg, grace_hours_none sub later hg]
    · rw [grace_hours_some sub now g2 hg, grace_hours_some sub later g2 hg]
      split_ifs with hA hB
      · have hsub : (g2 - later).toNat ≤ (g2 - now).toNat := by omega
        have hdiv : (g2 - later).toNat / 3600 ≤ (g2 - now).toNat / 3600 :=
          Nat.div_le_div_right hsub
        omega
      · exact absurd ⟨hA.1, by omega⟩ hB
      · omega
      · omega

/-- C6 witness: with grace end 7200, two hours remain at time 0, the count
does not increase from time 0 to 3600, and it is 0 once the grace window
has elapsed. -/
theorem grace_period_hours_remaining_spec_witness :
    get_grace_period_hours_remaining { tier := "basic", status := "past_due", grace_period_ends := some 7200 } 0 = max 0 (Int.fdiv (7200 - 0) 3600) ∧
    get_grace_period_hours_remaining { tier := "basic", status := "past_due", grace_period_ends := some 7200 } 3600 ≤
      get_grace_period_hours_remaining { tier := "basic", status := "past_due", grace_period_ends := some 7200 } 0 ∧
    get_grace_period_hours_remaining { tier := "basic", status := "past_due", grace_period_ends := some 7200 } 7200 = 0 :=
  ⟨(grace_period_hours_remaining_spec _ 0 0 7200).2.2.1 (by decide) rfl,
   (grace_period_hours_remaining_spec _ 0 3600 0).2.2.2 (by decide),
   (grace_period_hours_remaining_spec _ 7200 0 0).2.1 (by decide)⟩

/-- C5: `check_usage_limit` is Allowed whenever the effective tier's limit
is `-1`; otherwise it is Denied exactly when the mapped usage counter has
reached the limit; the limit lookup falls back to the free-tier table for
an unrecognized tier; and concretely, tier basic / posts_per_month (limit
30) allows usage 0..29 and denies 30, while premium (limit -1) allows any
usage including 10000. -/
theorem check_usage_limit_spec (sub : SubscriptionData) (u : UsageData)
    (resource t : String) (now : Int) :
    (get_usage_limit (get_effective_tier sub now) resource = -1 →
      check_usage_limit sub u resource now = true) ∧
    (get_usage_limit (get_effective_tier sub now) resource ≠ -1 →
      (check_usage_limit sub u resource now = false ↔
        get_usage_limit (get_effective_tier sub now) resource ≤
          usage_field_value u (usage_field_map resource))) ∧
    (t ≠ "free" → t ≠ "basic" → t ≠ "premium" →
      get_usage_limit t resource = get_usage_limit "free" resource) ∧
    (∀ k : Fin 30, check_usage_limit basic_active_sub { posts_created := k } "posts_per_month" 0 = true) ∧
    check_usage_limit basic_active_sub { posts_created := 30 } "posts_per_month" 0 = false ∧
    check_usage_limit premium_active_sub { posts_created := 10000 } "posts_per_month" 0 = true := by
  refine ⟨?_, ?_, ?_, by decide, by decide, by decide⟩
  · intro h
    simp [check_usage_limit, h]
  · intro h
    simp [check_usage_limit, beq_iff_eq, h, not_lt]
  · intro h1 h2 h3
    simp [get_usage_limit, usage_limits_row, beq_iff_eq, h1, h2, h3]

/-- C5 witness: the unlimited, denied-at-limit and unrecognized-tier cases
of `check_usage_limit_spec` at concrete inputs. -/
theorem check_usage_limit_spec_witness :
    check_usage_limit premium_active_sub { posts_created := 10000 } "posts_per_month" 0 = true ∧
    check_usage_limit basic_active_sub { posts_created := 30 } "posts_per_month" 0 = false ∧
    get_usage_limit "gold" "posts_per_month" = get_usage_limit "free" "posts_per_month" :=
  ⟨(check_usage_limit_spec premium_active_sub { posts_created := 10000 } "posts_per_month" "x" 0).1 (by decide),
   ((check_usage_limit_spec basic_active_sub { posts_created := 30 } "posts_per_month" "x" 0).2.1 (by decide)).mpr (by decide),
   (check_usage_limit_spec basic_active_sub {} "posts_per_month" "gold" 0).2.2.1 (by decide) (by decide) (by decide)⟩

/-- C7: the usage-period computation yields the first instant of `now`'s
calendar month as start and the first instant of the following month as
end (December rolls over to January of the next year), and the end is
strictly after the start. -/
theorem month_period_spec (now : UTCTime) (h1 : 1 ≤ now.month) (h2 : now.month ≤ 12) :
    month_period_start now = ⟨now.year, now.month, 1, 0, 0, 0⟩ ∧
    month_period_end now = spec_first_of_following_month now ∧
    (month_period_start now).ltb (month_period_end now) = true := by
  refine ⟨rfl, ?_, ?_⟩
  · unfold month_period_end spec_first_of_following_month month_period_start
    by_cases hm : now.month = 12
    · simp [hm]
    · simp [hm, UTCTime.mk.injEq]
      omega
  · unfold UTCTime.ltb month_period_end month_period_start
    by_cases hm : now.month = 12
    · simp [hm]
    · simp [hm]

/-- C7 witness: `month_period_spec` at 2025-12-15 (December→January year
rollover) and 2024-02-10 (leap-year February), with the concrete period
bounds. -/
theorem month_period_spec_witness :
    month_period_start ⟨2025, 12, 15, 10, 30, 0⟩ = ⟨2025, 12, 1, 0, 0, 0⟩ ∧
    month_period_end ⟨2025, 12, 15, 10, 30, 0⟩ = ⟨2026, 1, 1, 0, 0, 0⟩ ∧
    month_period_end ⟨2024, 2, 10, 0, 0, 0⟩ = ⟨2024, 3, 1, 0, 0, 0⟩ ∧
    (month_period_start ⟨2024, 2, 10, 0, 0, 0⟩).ltb (month_period_end ⟨2024, 2, 10, 0, 0, 0⟩) = true :=
  ⟨by decide, by decide, by decide,
   (month_period_spec ⟨2024, 2, 10, 0, 0, 0⟩ (by decide) (by decide)).2.2⟩

/-- C8: every billing-event translation (payment failed, payment
succeeded, checkout completed, expired) either sets both
`payment_failed_at` and `grace_period_ends` to non-null values (payment
failed, which is also the only one producing status past_due) or sets both
to null. -/
theorem grace_pair_set_and_cleared_together (sub : SubscriptionData)
    (cs : CheckoutStatus) (md : CheckoutMetadata) (cycle : String) (now : Int) :
    (get_payment_failed_update sub now).payment_failed_at = some now ∧
    (get_payment_failed_update sub now).grace_period_ends = some (now + 48 * 3600) ∧
    (get_payment_failed_update sub now).status = "past_due" ∧
    (get_payment_succeeded_update sub cycle now).payment_failed_at = none ∧
    (get_payment_succeeded_update sub cycle now).grace_period_ends = none ∧
    (get_subscription_update_from_checkout sub cs md now).payment_failed_at = none ∧
    (get_subscription_update_from_checkout sub cs md now).grace_period_ends = none ∧
    (get_subscription_expired_update sub).payment_failed_at = none ∧
    (get_subscription_expired_update sub).grace_period_ends = none :=
  ⟨rfl, rfl, rfl, rfl, rfl, rfl, rfl, rfl, rfl⟩

/-- C9: reactivation fails with the invalid-state error (and no mutation)
when `cancel_at_period_end` is not set; when it is set, it clears
`cancel_at_period_end` and `cancelled_at` and leaves every other
subscription field unchanged. -/
theorem reactivate_subscription_spec (sub : SubscriptionData) :
    (sub.cancel_at_period_end = false →
      reactivate_subscription sub = .error "No cancellation to revert") ∧
    (sub.cancel_at_period_end = true →
      reactivate_subscription sub = .ok (get_subscription_reactivation_update sub) ∧
      (get_subscription_reactivation_update sub).cancel_at_period_end = false ∧
      (get_subscription_reactivation_update sub).cancelled_at = none ∧
      (get_subscription_reactivation_update sub).tier = sub.tier ∧
      (get_subscription_reactivation_update sub).status = sub.status ∧
      (get_subscription_reactivation_update sub).billing_cycle = sub.billing_cycle ∧
      (get_subscription_reactivation_update sub).currency = sub.currency ∧
      (get_subscription_reactivation_update sub).stripe_customer_id = sub.stripe_customer_id ∧
      (get_subscription_reactivation_update sub).stripe_subscription_id = sub.stripe_subscription_id ∧
      (get_subscription_reactivation_update sub).stripe_price_id = sub.stripe_price_id ∧
      (get_subscription_reactivation_update sub).current_period_start = sub.current_period_start ∧
      (get_subscription_reactivation_update sub).current_period_end = sub.current_period_end ∧
      (get_subscription_reactivation_update sub).payment_failed_at = sub.payment_failed_at ∧
      (get_subscription_reactivation_update sub).grace_period_ends = sub.grace_period_ends ∧
      (get_subscription_reactivation_update sub).payment_method_last4 = sub.payment_method_last4 ∧
      (get_subscription_reactivation_update sub).payment_method_brand = sub.payment_method_brand ∧
      (get_subscription_reactivation_update sub).payment_method_exp = sub.payment_method_exp) := by
  constructor
  · intro h
    simp [reactivate_subscription, h]
  · intro h
    exact ⟨by simp [reactivate_subscription, h], rfl, rfl, rfl, rfl, rfl, rfl, rfl,
      rfl, rfl, rfl, rfl, rfl, rfl, rfl, rfl, rfl⟩

/-- C9 witness: `reactivate_subscription_spec` at a default subscription
(error, nothing to revert) and at a cancelled-at-period-end one
(cancellation fields cleared). -/
theorem reactivate_subscription_spec_witness :
    reactivate_subscription {} = .error "No cancellation to revert" ∧
    reactivate_subscription { cancel_at_period_end := true, cancelled_at := some 5 } =
      .ok (get_subscription_reactivation_update { cancel_at_period_end := true, cancelled_at := some 5 }) :=
  ⟨(reactivate_subscription_spec {}).1 rfl,
   ((reactivate_subscription_spec _).2 rfl).1⟩

/-- C2: the `checkout.session.completed` webhook branch does not consult
the stored transaction record: redelivering the same session id one hour
later, with the transaction already marked completed, mutates the
subscription again and moves `current_period_end` from 30 days after the
first delivery to 30 days after the second. -/
theorem webhook_checkout_replay_double_extends :
    let md : CheckoutMetadata :=
      { user_id := some "u1", tier := some "basic",
        billing_cycle := some "monthly", currency := some "aud" }
    let cs : CheckoutStatus := { subscription := some "sub_1", customer := some "cus_1" }
    let st0 : TenantState := { sub := get_default_subscription, txns := [("cs_1", "pending")] }
    let st1 := webhook_checkout_completed st0 cs md "cs_1" 0
    let st2 := webhook_checkout_completed st1 cs md "cs_1" 3600
    txn_status st1.txns "cs_1" = some "completed" ∧
    st1.sub.current_period_end = some 2592000 ∧
    st2.sub.current_period_end = some 2595600 ∧
    st2.sub ≠ st1.sub := by
  decide

/-- C3: processing `invoice.payment_succeeded` sets the subscription
status to `"active"` and replaces the whole usage sub-document with the
reset data, so all monthly counters read 0 -- but the lifetime counters,
absent from the reset dict, also read back 0 instead of their prior
values. -/
theorem payment_succeeded_wipes_lifetime_counters :
    let now_cal : UTCTime := ⟨2025, 6, 10, 12, 0, 0⟩
    let u0 : UsageData :=
      { posts_created := 7, ai_generations := 2,
        lifetime_posts := 5, lifetime_ai_generations := 9 }
    let u1 := store_usage_replacing (get_reset_usage_data now_cal)
    let sub0 : SubscriptionData :=
      { tier := "basic", status := "past_due", billing_cycle := some "monthly",
        payment_failed_at := some 1000, grace_period_ends := some 173800 }
    let sub1 := get_payment_succeeded_update sub0 (sub0.billing_cycle.getD "monthly") 200000
    sub1.status = "active" ∧
    u1.posts_created = 0 ∧ u1.ai_generations = 0 ∧ u1.ai_hook_improvements = 0 ∧
    u1.url_imports = 0 ∧ u1.gem_extractions = 0 ∧ u1.voice_analyses = 0 ∧
    u1.comment_drafts = 0 ∧
    u0.lifetime_posts = 5 ∧ u1.lifetime_posts = 0 ∧
    u0.lifetime_ai_generations = 9 ∧ u1.lifetime_ai_generations = 0 := by
  decide

/-- C4 counterexample: `get_subscription_expired_update` leaves
`stripe_customer_id` populated, so not every billing reference field is
null after the update, contrary to the claim. -/
theorem expired_update_keeps_customer_id :
    (get_subscription_expired_update
      { tier := "premium", status := "active", stripe_customer_id := some "cus_1",
        stripe_subscription_id := some "sub_1",
        stripe_price_id := some "price_premium_monthly_aud" }).stripe_customer_id
      = some "cus_1" := by
  decide

/-- C4 (amended): the expired update sets tier `"free"` and status
`"expired"` and clears `stripe_subscription_id`, `stripe_price_id`, the
period bounds, the cancellation fields and the grace-period fields, while
`stripe_customer_id` is left unchanged. -/
theorem expired_update_spec (sub : SubscriptionData) :
    (get_subscription_expired_update sub).tier = "free" ∧
    (get_subscription_expired_update sub).status = "expired" ∧
    (get_subscription_expired_update sub).billing_cycle = none ∧
    (get_subscription_expired_update sub).stripe_subscription_id = none ∧
    (get_subscription_expired_update sub).stripe_price_id = none ∧
    (get_subscription_expired_update sub).current_period_start = none ∧
    (get_subscription_expired_update sub).current_period_end = none ∧
    (get_subscription_expired_update sub).cancelled_at = none ∧
    (get_subscription_expired_update sub).cancel_at_period_end = false ∧
    (get_subscription_expired_update sub).payment_failed_at = none ∧
    (get_subscription_expired_update sub).grace_period_ends = none ∧
    (get_subscription_expired_update sub).stripe_customer_id = sub.stripe_customer_id :=
  ⟨rfl, rfl, rfl, rfl, rfl, rfl, rfl, rfl, rfl, rfl, rfl, rfl⟩

/-- C10: with no `STRIPE_PRICE_*` environment overrides configured, price
id generation and parsing round-trip for every (tier, cycle, currency)
combination, and any id that does not start with `price_` or has fewer
than 4 underscore-separated parts parses to the defensive default
`("free", "monthly", "aud")`. -/
theorem price_id_round_trip (env : Env) (henv : ∀ k, env k = none) :
    (∀ t c cur, (t, c, cur) ∈ price_id_combos →
      get_tier_from_price_id env (get_price_id env t c cur) = (t, c, cur)) ∧
    (∀ s, ¬ (starts_with_price s = true ∧ 4 ≤ (split_on_underscore s).length) →
      get_tier_from_price_id env s = ("free", "monthly", DEFAULT_CURRENCY)) := by
  constructor
  · intro t c cur hmem
    fin_cases hmem <;>
      simp only [get_price_id, get_tier_from_price_id, stripe_price_env_key, henv] <;>
      decide
  · intro s hs
    have hfind : price_id_combos.find?
        (fun c => env (stripe_price_env_key c.1 c.2.1 c.2.2) == some s) = none := by
      apply List.find?_eq_none.mpr
      intro x hx
      simp [henv]
    simp only [get_tier_from_price_id, hfind]
    by_cases hp : starts_with_price s
    · have hlen : ¬ 4 ≤ (split_on_underscore s).length := fun hl => hs ⟨hp, hl⟩
      simp [hp, hlen]
    · simp [hp]

/-- C10 witness: `price_id_round_trip` under the empty environment at the
(premium, annual, gbp) combination and at the malformed id `"bogus"`. -/
theorem price_id_round_trip_witness :
    get_tier_from_price_id (fun _ => none) (get_price_id (fun _ => none) "premium" "annual" "gbp") =
      ("premium", "annual", "gbp") ∧
    get_tier_from_price_id (fun _ => none) "bogus" = ("free", "monthly", "aud") :=
  ⟨(price_id_round_trip (fun _ => none) (fun _ => rfl)).1 "premium" "annual" "gbp" (by decide),
   (price_id_round_trip (fun _ => none) (fun _ => rfl)).2 "bogus" (by decide)⟩

end LinkedInSlayer
